import Mathlib

/-!
Verification of the document-extraction-and-validation pipeline of the
Vendor-Qualification repository.  Python sources are shallowly embedded:
records become structures of string fields, dictionaries become
association lists, exceptions become `Except`/`Option`, and the external
collaborators (HTTP fetch, the LLM oracle, the JPEG encoder, the PDF
renderer) become explicit function parameters.  Machine floats are
modelled by `ℚ`; the amounts and tolerances handled by the code are far
inside the range where the two agree.
-/

namespace VQ

/-! ### Python string primitives

The Python string methods used by the sources, re-implemented over
`List Char` so that every definition is executable and kernel-reducible.
-/

/-- Python `str.strip()`: drop whitespace from both ends. -/
def pyStripChars (l : List Char) : List Char :=
  ((l.dropWhile Char.isWhitespace).reverse.dropWhile Char.isWhitespace).reverse

/-- Python `str.strip()` on `String`. -/
def pyStrip (s : String) : String :=
  ⟨pyStripChars s.data⟩

/-- Python `str.replace(c, '')` for a single-character pattern:
removes every occurrence of the character. -/
def removeAllChar (c : Char) (l : List Char) : List Char :=
  l.filter (fun x => x ≠ c)

/-- Python `str.replace('SAR', '')`: left-to-right, non-overlapping
removal of every occurrence of the three-character pattern `SAR`. -/
def removeSARChars : List Char → List Char
  | 'S' :: 'A' :: 'R' :: rest => removeSARChars rest
  | c :: rest => c :: removeSARChars rest
  | [] => []

/-- Python `str.upper()` (the sources only ever compare ASCII results). -/
def pyUpper (s : String) : String :=
  ⟨s.data.map Char.toUpper⟩

/-- Python `str.isdigit()`: non-empty and every character a digit. -/
def pyIsDigit (l : List Char) : Bool :=
  !l.isEmpty && l.all Char.isDigit

/-- Value of a list of decimal digit characters. -/
def digitsToNat (l : List Char) : ℕ :=
  l.foldl (fun a c => 10 * a + (c.toNat - 48)) 0

/-- Python `float(s)` as used by the sources: optional surrounding
whitespace, optional sign, decimal digits with at most one decimal
point; anything else fails (`ValueError`, modelled as `none`).
Exponent forms, `inf`, `nan` and underscore separators are not
modelled — none arise in this pipeline's data. -/
def pyFloatChars (l : List Char) : Option ℚ :=
  let t := pyStripChars l
  let signAndBody : Bool × List Char :=
    match t with
    | '-' :: rest => (true, rest)
    | '+' :: rest => (false, rest)
    | _ => (false, t)
  let neg := signAndBody.1
  let body := signAndBody.2
  let applySign : ℚ → ℚ := fun q => if neg then -q else q
  match body.span (fun c => c ≠ '.') with
  | (ip, []) =>
      if !ip.isEmpty && ip.all Char.isDigit then
        some (applySign (digitsToNat ip))
      else none
  | (ip, _ :: fp) =>
      if (!ip.isEmpty || !fp.isEmpty) && ip.all Char.isDigit &&
          fp.all Char.isDigit && fp.all (fun c => c ≠ '.') then
        if fp.isEmpty then
          some (applySign (digitsToNat ip))
        else
          some (applySign ((digitsToNat ip : ℚ) +
            (digitsToNat fp : ℚ) / ((10 : ℚ) ^ fp.length)))
      else none

/-- Python `float(s)` on `String`. -/
def pyFloat (s : String) : Option ℚ :=
  pyFloatChars s.data

/-- `str(x).replace('SAR', '').replace(',', '').strip()` — the amount
clean-up idiom used before every numeric parse in the sources. -/
def cleanAmount (s : String) : String :=
  ⟨pyStripChars (removeAllChar ',' (removeSARChars s.data))⟩

/-- `vat.replace(' ', '').replace('-', '')` — the VAT-number clean-up
idiom. -/
def cleanVat (s : String) : String :=
  ⟨removeAllChar '-' (removeAllChar ' ' s.data)⟩

/-! ### Invoice records and `InvoiceValidator`
(`backend/invoice/InvoiceValidation.py`)

An extracted invoice record is a flat mapping of named string fields;
the extraction prompt guarantees every field is present, with `"N/A"`
(text) or `"0"` (amounts) standing in for missing data, so the record
is modelled as a structure of strings.  `qr_code_present` is kept as a
string whose Python truthiness is emptiness. -/

structure InvoiceRecord where
  invoice_number : String
  invoice_date : String
  supplier_name : String
  supplier_vat_number : String
  customer_name : String
  total_amount_excluding_vat : String
  vat_amount : String
  total_amount_including_vat : String
  currency_code : String
  qr_code_present : String
deriving DecidableEq, Repr

/-- `ZatcaValidationResult` dictionary built by
`InvoiceValidator.validate_zatca_compliance`. -/
structure ZatcaValidation where
  is_compliant : Bool
  warnings : List String
  errors : List String
deriving DecidableEq, Repr

/-- Lines 18-24 of `InvoiceValidation.py` — check VAT number format,
guarded by `if vat_number and vat_number != 'N/A'`. -/
def zatcaVatStep (d : InvoiceRecord) (v : ZatcaValidation) : ZatcaValidation :=
  if d.supplier_vat_number ≠ "" ∧ d.supplier_vat_number ≠ "N/A" then
    let clean_vat := cleanVat d.supplier_vat_number
    if ¬ (pyIsDigit clean_vat.data ∧ clean_vat.length = 15) then
      { v with
        errors := v.errors ++ ["Invalid VAT number: " ++ d.supplier_vat_number]
        is_compliant := false }
    else v
  else v

/-- Lines 26-29 — check currency, warning only. -/
def zatcaCurrencyStep (d : InvoiceRecord) (v : ZatcaValidation) : ZatcaValidation :=
  if d.currency_code ≠ "" ∧ d.currency_code ≠ "SAR" then
    { v with warnings :=
        v.warnings ++ ["Currency is " ++ d.currency_code ++ ", expected SAR"] }
  else v

/-- Lines 31-33 — check QR code, warning only. -/
def zatcaQrStep (d : InvoiceRecord) (v : ZatcaValidation) : ZatcaValidation :=
  if d.qr_code_present = "" ∨ d.qr_code_present = "N/A" then
    { v with warnings := v.warnings ++ ["No QR code detected - required by ZATCA"] }
  else v

/-- Lines 35-44 — check VAT calculation consistency; the
`try/except (ValueError, TypeError)` around the three parses becomes
the wildcard arm, a warning either way. -/
def zatcaAmountStep (d : InvoiceRecord) (v : ZatcaValidation) : ZatcaValidation :=
  match pyFloat (cleanAmount d.total_amount_excluding_vat),
      pyFloat (cleanAmount d.vat_amount),
      pyFloat (cleanAmount d.total_amount_including_vat) with
  | some total_excl, some vat_amt, some total_incl =>
      if |total_excl + vat_amt - total_incl| > (0.01 : ℚ) then
        { v with warnings := v.warnings ++ ["VAT calculation may be incorrect"] }
      else v
  | _, _, _ =>
      { v with warnings := v.warnings ++ ["Could not validate VAT calculations"] }

/-- `InvoiceValidator.validate_zatca_compliance`
(`InvoiceValidation.py` lines 10-46): starting from
`{is_compliant: True, warnings: [], errors: []}`, the four rules run
unconditionally in source order, each mutating the validation
record. -/
def validate_zatca_compliance (d : InvoiceRecord) : ZatcaValidation :=
  zatcaAmountStep d (zatcaQrStep d (zatcaCurrencyStep d (zatcaVatStep d ⟨true, [], []⟩)))

/-- The sentinel list of `is_complete_invoice_data`:
`['N/A', 'NA', 'NULL', 'NONE', '']`. -/
def sentinelStrings : List String :=
  ["N/A", "NA", "NULL", "NONE", ""]

/-- Body of the required-field loop of `is_complete_invoice_data`:
`value = str(invoice_data[field]).strip()` is rejected when
`not value or value.upper() in ['N/A', 'NA', 'NULL', 'NONE', '']`. -/
def requiredFieldBad (value : String) : Bool :=
  pyStrip value = "" ∨ pyUpper (pyStrip value) ∈ sentinelStrings

/-- Body of the financial-amount loop of `is_complete_invoice_data`:
strip, remove `SAR`/commas, parse as float, demand `> 0`. -/
def meaningfulAmount (value : String) : Bool :=
  match pyFloat (cleanAmount (pyStrip value)) with
  | some amount => amount > 0
  | none => false

/-- `InvoiceValidator.is_complete_invoice_data`
(`InvoiceValidation.py` lines 48-119).  Each early `return False` of the
source is one branch of the `if` chain, in source order. -/
def is_complete_invoice_data (d : InvoiceRecord) : Bool :=
  if [d.invoice_number, d.invoice_date, d.supplier_name,
      d.supplier_vat_number, d.customer_name].any requiredFieldBad then false
  else if ¬ [d.total_amount_excluding_vat, d.vat_amount,
      d.total_amount_including_vat].any meaningfulAmount then false
  else if ¬ (pyIsDigit (cleanVat (pyStrip d.supplier_vat_number)).data ∧
      (cleanVat (pyStrip d.supplier_vat_number)).length = 15) then false
  else if pyUpper (pyStrip d.invoice_date) ∈ (["N/A", "NA"] : List String) then false
  else if (pyStrip d.supplier_name).length < 3 then false
  else if (pyStrip d.customer_name).length < 2 then false
  else true

/-- `InvoiceValidator.filter_complete_results`
(`InvoiceValidation.py` lines 121-137): early return on an empty list,
then keep exactly the records passing `is_complete_invoice_data`,
in order. -/
def filter_complete_results (results : List InvoiceRecord) : List InvoiceRecord :=
  if results = [] then []
  else results.filter is_complete_invoice_data

/-! ### `ContractValidator`
(`Desktop/Delfourt-Project/contract/ContractValidator.py`)

Contract records reach the validator as Python dictionaries accessed
with `.get(key, '')`, so they are modelled as string association
lists. -/

/-- A Python dictionary with string keys and string values. -/
abbrev PyDict : Type := List (String × String)

/-- `d.get(k, dflt)` : dictionary lookup with default. -/
def pyGet (d : PyDict) (k dflt : String) : String :=
  match d.find? (fun p => p.1 = k) with
  | some p => p.2
  | none => dflt

/-- The `required_fields` list of `is_complete_contract_data`
(`ContractValidator.py` lines 15-21).  The Python source lists
`'Contract_Total_Amount'` and `'Currency'` without a separating comma,
so adjacent-literal concatenation makes the fourth (and last) element
the single key `"Contract_Total_AmountCurrency"`. -/
def contract_required_fields : List String :=
  ["Contracted_Company", "Contracting_Company", "Contract_Date",
   "Contract_Total_Amount" ++ "Currency"]

/-- `ContractValidator.is_complete_contract_data`
(`ContractValidator.py` lines 9-28): every listed field, fetched with
default `''` and stripped, must be non-empty and not `N/A`
(case-insensitively). -/
def is_complete_contract_data (contract_data : PyDict) : Bool :=
  contract_required_fields.all (fun field =>
    let value := pyStrip (pyGet contract_data field "")
    ¬ (value = "" ∨ pyUpper value = "N/A"))

/-- `ContractValidator.is_contract_amount_matching`
(`ContractValidator.py` lines 30-50).  The `try/except` around the
float parses becomes the `none` branches. -/
def is_contract_amount_matching (contract_data : PyDict) (expected_amount : ℚ) :
    Bool :=
  if pyUpper (pyStrip (pyGet contract_data "Currency" "")) = "SAR" then
    match pyFloat (cleanAmount (pyGet contract_data "Contract_Total_Amount" "")) with
    | some amount => |amount - expected_amount| < 1000
    | none => false
  else if pyUpper (pyStrip (pyGet contract_data "Currency" "")) = "USD" then
    match pyFloat (cleanAmount (pyGet contract_data "Contract_Total_Amount" "")) with
    | some amount => |amount * (3.75 : ℚ) - expected_amount| < 1000
    | none => false
  else false

/-! ### Contract processing (`contract/ContractProcessing.py`, `contract/Gemeni.py`)

`GemeniLLMContractInfoExtractor.extract_invoice_info_uri` downloads
`file_uri` with `httpx.get` and hands the bytes to the Gemini model;
its `try/except` converts every failure — including the `TypeError`
that `httpx.get` raises when handed a dictionary instead of a URL
string — into `None`.  The whole network-and-oracle round trip on a
genuine string URI is abstracted as `oracle : String → Option
ContractData`. -/

/-- Structured output schema `ContractData` (`Gemeni.py` lines 14-19). -/
structure ContractData where
  contracted_company : String
  contracting_company : String
  contract_date : String
  contract_total_amount : String
  currency : String
deriving DecidableEq, Repr

/-- The verdict dictionary built by
`InvoiceProcessor.process_contract` (`ContractProcessing.py`).
`reason` is absent (`none`) on the early-return path. -/
structure ContractVerdict where
  is_valid : Bool
  reason : Option String
  contract_data : Option (List ContractData)
deriving DecidableEq, Repr

/-- A Python runtime error relevant to this pipeline. -/
inductive PyError where
  | attributeError (obj attr : String)
  | unboundLocalError (name : String)
  | valueError (msg : String)
deriving DecidableEq, Repr

/-- The argument `process_contract` hands to
`extract_contract_info_uri`: either a URI string (the intended call) or
a whole project-record dictionary (the actual call). -/
inductive UriArg where
  | str (s : String)
  | projectDict (d : PyDict)
deriving DecidableEq, Repr

/-- Python truthiness of a `UriArg` (`if not uri` in
`extract_contract_info_uri`): an empty string and an empty dict are
falsy. -/
def uriTruthy : UriArg → Bool
  | .str s => s ≠ ""
  | .projectDict d => ¬ d.isEmpty

/-- `GemeniLLMContractInfoExtractor.extract_invoice_info_uri`
(`Gemeni.py` lines 31-66): on a string URI the oracle answers; on any
other argument `httpx.get` raises `TypeError`, caught by the
function's `except`, which returns `None`. -/
def extract_invoice_info_uri (oracle : String → Option ContractData) :
    UriArg → Option ContractData
  | .str s => oracle s
  | .projectDict _ => none

/-- `InvoiceProcessor.extract_contract_info_uri`
(`ContractProcessing.py` lines 13-34): empty-argument guard, then wrap
a successful extraction in a one-element list; `None` (and any caught
exception) yields `[]`. -/
def extract_contract_info_uri (oracle : String → Option ContractData)
    (uri : UriArg) : List ContractData :=
  if ¬ uriTruthy uri then []
  else
    match extract_invoice_info_uri oracle uri with
    | some contract_data => [contract_data]
    | none => []

/-- The methods defined by the `InvoiceProcessor` class of
`ContractProcessing.py`.  `compare_contract_info` is not among them
(it belongs to `GemeniLLMContractInfoExtractor`), so the call
`self.compare_contract_info(...)` on line 65 can only raise
`AttributeError`. -/
def contractProcessorMethods : List String :=
  ["__init__", "extract_contract_info_uri", "validate_contract",
   "process_contract"]

/-- `InvoiceProcessor.process_contract`
(`ContractProcessing.py` lines 45-68).  Line 47 passes the whole
`project_data` dictionary — not `project_data['file_uri']` — as the
URI.  When extraction returns no results the function returns the
failed verdict; otherwise it builds `expected_data` and evaluates
`self.compare_contract_info(...)`, whose attribute lookup fails. -/
def process_contract (oracle : String → Option ContractData)
    (project_data : PyDict) : Except PyError ContractVerdict :=
  let contract_results := extract_contract_info_uri oracle (.projectDict project_data)
  match contract_results with
  | [] => .ok ⟨false, none, none⟩
  | _ :: _ =>
      if "compare_contract_info" ∈ contractProcessorMethods then
        -- unreachable: the class defines no such method
        .ok ⟨false, none, none⟩
      else
        .error (.attributeError "InvoiceProcessor" "compare_contract_info")

/-! ### Image compression (`invoice/FileConversion.py`)

A PIL image is modelled by its pixel dimensions; the JPEG encoder —
`image.save(buffer, format='JPEG', quality=q, optimize=True)` followed
by `len(buffer.getvalue())` — is an external library abstracted as
`enc : Img → ℕ → ℕ` giving the encoded byte length of an image at a
quality setting.  The size budget `max_size_mb * 1024 * 1024` is a
Python float, modelled as `ℚ`.  `compressLoop` is the `while quality >
20` loop of `compress_image_for_api`, given explicit fuel: `none`
means the loop has not returned within `fuel` iterations, so a run
that is `none` for every fuel is a non-terminating run. -/

structure Img where
  width : ℕ
  height : ℕ
deriving DecidableEq, Repr

/-- `image.resize((int(width * 0.8), int(height * 0.8)))` — the
downscale applied when quality falls to 30 or below.  `int(w * 0.8)`
truncates, i.e. `4 * w / 5` in integer arithmetic. -/
def resize08 (img : Img) : Img :=
  ⟨4 * img.width / 5, 4 * img.height / 5⟩

/-- `max_size_bytes = max_size_mb * 1024 * 1024`. -/
def max_size_bytes (max_size_mb : ℚ) : ℚ :=
  max_size_mb * 1024 * 1024

/-- The `while quality > 20` loop of
`FileConverter.compress_image_for_api` (`FileConversion.py` lines
88-116), line for line: encode at the current quality and return the
current image when the byte length fits the budget; otherwise
decrement quality by 10, and when the decremented quality is ≤ 30,
resize to 80 % and reset quality to 80.  Falling out of the loop
(quality ≤ 20) reaches the final aggressive halving fallback of lines
112-116. -/
def compressLoop (enc : Img → ℕ → ℕ) (maxBytes : ℚ) :
    ℕ → Img → ℕ → Option Img
  | 0, _, _ => none
  | fuel + 1, current_image, quality =>
    if quality > 20 then
      let current_size := enc current_image quality
      if (current_size : ℚ) ≤ maxBytes then
        some current_image
      else
        let quality2 := quality - 10
        if quality2 ≤ 30 then
          compressLoop enc maxBytes fuel (resize08 current_image) 80
        else
          compressLoop enc maxBytes fuel current_image quality2
    else
      -- Final fallback - very small image
      some ⟨current_image.width / 2, current_image.height / 2⟩

/-- `FileConverter.compress_image_for_api` (`FileConversion.py` lines
80-116): run the loop from quality 95 on a copy of the input. -/
def compress_image_for_api (enc : Img → ℕ → ℕ) (maxBytes : ℚ)
    (fuel : ℕ) (pil_image : Img) : Option Img :=
  compressLoop enc maxBytes fuel pil_image 95

/-- `FileConverter.pil_to_base64` (`FileConversion.py` lines 34-42):
compress, then save the result as JPEG at the fixed `quality=85` and
base64-encode.  The model returns the byte length of that final
pre-base64 JPEG encoding (the quantity the size budget speaks about),
threaded through the same fuel as the loop. -/
def pil_to_base64 (enc : Img → ℕ → ℕ) (maxBytes : ℚ) (fuel : ℕ)
    (pil_image : Img) : Option ℕ :=
  match compress_image_for_api enc maxBytes fuel pil_image with
  | some compressed_image => some (enc compressed_image 85)
  | none => none

/-! ### PDF rasterization (`FileConversion.py` lines 118-152)

`convert_file_to_base64_images` opens the PDF and loops over all
pages inside a single `try`: render the page, downscale if above 4 MP,
preprocess, and base64-encode.  The renderer for page `i` is
abstracted as `render : ℕ → Except PyError Img` (PyMuPDF raising
becomes `.error`), and the deterministic
downscale-preprocess-encode chain on a rendered page as
`encodePage : Img → String`. -/

/-- The `for page_num in range(page_count)` loop over the given list
of page numbers, inside the single `try`: the first raising page
aborts the whole loop. -/
def convertPages (render : ℕ → Except PyError Img) (encodePage : Img → String) :
    List ℕ → Except PyError (List String)
  | [] => .ok []
  | i :: rest =>
    match render i with
    | .error e => .error e
    | .ok img =>
      match convertPages render encodePage rest with
      | .error e => .error e
      | .ok images => .ok (encodePage img :: images)

/-- `FileConverter.convert_file_to_base64_images`
(`FileConversion.py` lines 118-152) for a PDF with `page_count`
pages: the whole page loop runs inside one `try`; its `except` prints
and returns `[]`. -/
def convert_file_to_base64_images (render : ℕ → Except PyError Img)
    (encodePage : Img → String) (page_count : ℕ) : List String :=
  match convertPages render encodePage (List.range page_count) with
  | .ok images => images
  | .error _ => []

/-! ### File processing and the invoice batch driver
(`backend/invoice/FileProcessing.py`, `main.py`)

The HTTP download (`requests.get` with its surrounding `try/except`
that returns `None` on any failure) is abstracted as
`fetch : String → Option Bytes`; the PDF-to-base64 conversion —
total, since its own `except` returns `[]` — as
`convert : Bytes → List String`; and the per-page LLM round trip of
`InvoiceProcessor.process_invoice_base64_images` as
`extract : String → Option InvoiceRecord`. -/

/-- Raw downloaded bytes. -/
abbrev Bytes : Type := List ℕ

/-- Python `needle in haystack` on byte strings: contiguous
subsequence test. -/
def bytesContain (needle : Bytes) : Bytes → Bool
  | [] => needle.isEmpty
  | c :: rest => needle.isPrefixOf (c :: rest) || bytesContain needle rest

/-- `FileProcessor.detect_file_type` (`FileProcessing.py` lines
27-47): magic-byte sniffing over the byte prefix. -/
def detect_file_type (file_content : Bytes) : String :=
  if [0x25, 0x50, 0x44, 0x46].isPrefixOf file_content then "pdf"  -- %PDF
  else
    let image_signatures : List Bytes :=
      [[0xff, 0xd8, 0xff],                                   -- JPEG
       [0x89, 0x50, 0x4e, 0x47, 0x0d, 0x0a, 0x1a, 0x0a],    -- PNG
       [0x47, 0x49, 0x46, 0x38, 0x37, 0x61],                -- GIF87a
       [0x47, 0x49, 0x46, 0x38, 0x39, 0x61],                -- GIF89a
       [0x42, 0x4d]]                                         -- BM
    if image_signatures.any (fun signature => signature.isPrefixOf file_content) then
      "image"
    else if [0x52, 0x49, 0x46, 0x46].isPrefixOf file_content ∧
        bytesContain [0x57, 0x45, 0x42, 0x50] (file_content.take 12) = true then
      "image"
    else "unknown"

/-- The two shapes `FileProcessor.process_file_from_uri` can return:
the images list, or the tuple `(file_type, None)` of line 57. -/
inductive FileResult where
  | images (l : List String)
  | typeAndNone (t : String)
deriving DecidableEq, Repr

/-- `FileProcessor.process_file_from_uri` (`FileProcessing.py` lines
50-58).  A failed download yields `file_content = None`, and
`detect_file_type(None)` raises `AttributeError` on
`None.startswith`.  For a non-PDF type the local variable `images` is
never assigned, so `return images` raises `UnboundLocalError`.
Neither exception is caught here or in the caller. -/
def process_file_from_uri (fetch : String → Option Bytes)
    (convert : Bytes → List String) (file_uri : String) :
    Except PyError FileResult :=
  match fetch file_uri with
  | none => .error (.attributeError "NoneType" "startswith")
  | some file_content =>
    let file_type := detect_file_type file_content
    if file_type = "pdf" then
      let images := convert file_content
      if images = [] then .ok (.typeAndNone file_type)
      else .ok (.images images)
    else .error (.unboundLocalError "images")

/-- `InvoiceProcessor.process_invoice_base64_images`
(`Desktop/Delfourt-Project/invoice/InvoiceProcessing.py` lines
24-60) over page payloads: a falsy argument yields `[]`; otherwise
each page goes through the extractor inside a per-page `try` (a `None`
payload always fails there), successful extractions are collected in
order, and the list is filtered for completeness.  The bookkeeping
annotations (`page_number`, `processed_at`, `zatca_validation`) do
not affect control flow and are not modelled. -/
def process_invoice_base64_images (extract : String → Option InvoiceRecord)
    (pages : List (Option String)) : List InvoiceRecord :=
  if pages = [] then []
  else filter_complete_results (pages.filterMap (fun p => p.bind extract))

/-- `sum(float(invoice.get('total_amount_including_vat', 0)) for
invoice in invoices)` — `float` on an unparseable string raises
`ValueError`, uncaught in `invoiceProcess`. -/
def sumAmounts : List InvoiceRecord → Except PyError ℚ
  | [] => .ok 0
  | invoice :: rest =>
    match pyFloat invoice.total_amount_including_vat with
    | none => .error (.valueError "could not convert string to float")
    | some q =>
      match sumAmounts rest with
      | .error e => .error e
      | .ok s => .ok (q + s)

/-- The `total_amount` computation of `main.py` lines 39-42. -/
def computeTotal (invoices : List InvoiceRecord) : Except PyError ℚ :=
  if invoices.length > 1 then sumAmounts invoices
  else
    match invoices with
    | [] => .ok 0
    | invoice :: _ =>
      match pyFloat invoice.total_amount_including_vat with
      | none => .error (.valueError "could not convert string to float")
      | some q => .ok q

/-- One row of `supabase_client.get_previous_projects()` as
`invoiceProcess` reads it. -/
structure Project where
  id : ℕ
  file_uri : String
  total_amount_including_vat : ℚ
deriving DecidableEq, Repr

/-- `invoiceProcess` (`main.py` lines 24-53).  The result pairs the
`update_project_verification` write-backs actually performed (in
order) with the uncaught exception, if any, that aborted the loop: the
per-project body has no `try/except`, so the first error ends the
whole batch.  The fixed `time.sleep(60)` between projects has no
observable effect here and is not modelled. -/
def invoiceProcess (fetch : String → Option Bytes)
    (convert : Bytes → List String)
    (extract : String → Option InvoiceRecord) :
    List Project → List (ℕ × Bool) × Option PyError
  | [] => ([], none)
  | project :: rest =>
    match process_file_from_uri fetch convert project.file_uri with
    | .error e => ([], some e)
    | .ok fileResult =>
      let pages : List (Option String) :=
        match fileResult with
        | .images l => l.map some
        | .typeAndNone t => [some t, none]  -- iterating the 2-tuple (t, None)
      let invoices := process_invoice_base64_images extract pages
      match computeTotal invoices with
      | .error e => ([], some e)
      | .ok total_amount =>
        let write := (project.id,
          decide (total_amount = project.total_amount_including_vat))
        let next := invoiceProcess fetch convert extract rest
        (write :: next.1, next.2)

/-! ### Specification-shaped definitions

These definitions follow the wording of the specification claims (not
the source) and exist only to be compared against the source-derived
definitions above. -/

/-- Spec shape for C6: every one of the five contract fields is
present, non-empty after trimming, and not `"N/A"` in any letter
case. -/
def spec_complete_contract (d : PyDict) : Bool :=
  (["Contracted_Company", "Contracting_Company", "Contract_Date",
    "Contract_Total_Amount", "Currency"] : List String).all (fun field =>
      let value := pyStrip (pyGet d field "")
      ¬ (value = "" ∨ pyUpper value = "N/A"))

/-- Spec shape for C7: one raster image per successfully rendered page
in document order; a failing page yields no image and the remaining
pages are still converted. -/
def spec_per_page_conversion (render : ℕ → Except PyError Img)
    (encodePage : Img → String) (page_count : ℕ) : List String :=
  (List.range page_count).filterMap (fun i =>
    match render i with
    | .ok img => some (encodePage img)
    | .error _ => none)

/-- Spec shape for C8: currency-aware amount matching with a strict
1000-SAR tolerance, USD converted at 3.75, other currencies and parse
failures rejected. -/
def spec_amount_matching (d : PyDict) (expected_amount : ℚ) : Prop :=
  (pyUpper (pyStrip (pyGet d "Currency" "")) = "SAR" ∧
    ∃ a : ℚ, pyFloat (cleanAmount (pyGet d "Contract_Total_Amount" "")) = some a ∧
      |a - expected_amount| < 1000) ∨
  (pyUpper (pyStrip (pyGet d "Currency" "")) = "USD" ∧
    ∃ a : ℚ, pyFloat (cleanAmount (pyGet d "Contract_Total_Amount" "")) = some a ∧
      |a * (3.75 : ℚ) - expected_amount| < 1000)

/-- Spec shape for C9, conjunct by conjunct: required fields non-empty
and non-sentinel, at least one headline amount parses to a positive
number, VAT exactly 15 digits after separator removal, supplier name
at least 3 characters, customer name at least 2. -/
def spec_complete_invoice (d : InvoiceRecord) : Prop :=
  (∀ v ∈ [d.invoice_number, d.invoice_date, d.supplier_name,
      d.supplier_vat_number, d.customer_name],
    pyStrip v ≠ "" ∧ pyUpper (pyStrip v) ∉ sentinelStrings) ∧
  (∃ v ∈ [d.total_amount_excluding_vat, d.vat_amount,
      d.total_amount_including_vat],
    ∃ a : ℚ, pyFloat (cleanAmount (pyStrip v)) = some a ∧ 0 < a) ∧
  ((cleanVat (pyStrip d.supplier_vat_number)).data.all Char.isDigit ∧
    (cleanVat (pyStrip d.supplier_vat_number)).length = 15) ∧
  3 ≤ (pyStrip d.supplier_name).length ∧
  2 ≤ (pyStrip d.customer_name).length

/-! ### C10 — `filter_complete_results` -/

/-- C10: for every list of invoice records, `filter_complete_results`
returns exactly the records passing `is_complete_invoice_data`
(membership characterisation), preserves their relative order
(sublist), maps the empty list to the empty list, and is
idempotent. -/
theorem c10_filter_complete_props (results : List InvoiceRecord) :
    filter_complete_results results = results.filter is_complete_invoice_data ∧
    (∀ r : InvoiceRecord, r ∈ filter_complete_results results ↔
      r ∈ results ∧ is_complete_invoice_data r = true) ∧
    (filter_complete_results results).Sublist results ∧
    filter_complete_results ([] : List InvoiceRecord) = [] ∧
    filter_complete_results (filter_complete_results results) =
      filter_complete_results results := by
  have hfilter : filter_complete_results results =
      results.filter is_complete_invoice_data := by
    by_cases h : results = [] <;> simp [filter_complete_results, h]
  refine ⟨hfilter, ?_, ?_, ?_, ?_⟩
  · intro r
    rw [hfilter]
    simp [List.mem_filter]
  · rw [hfilter]
    exact List.filter_sublist results
  · simp [filter_complete_results]
  · have h2 : filter_complete_results (results.filter is_complete_invoice_data) =
        (results.filter is_complete_invoice_data).filter is_complete_invoice_data := by
      by_cases h : results.filter is_complete_invoice_data = [] <;>
        simp [filter_complete_results, h]
    rw [hfilter, h2, List.filter_filter]
    simp

/-! ### C6 — `is_complete_contract_data` and the concatenated field name -/

/-- A contract record carrying all five intended fields with real
values. -/
def c6_contract_record : PyDict :=
  [("Contracted_Company", "Alpha Trading Co"),
   ("Contracting_Company", "Beta Construction LLC"),
   ("Contract_Date", "2024-01-01"),
   ("Contract_Total_Amount", "100000 SAR"),
   ("Currency", "SAR")]

/-- C6: the claim describes the intended five-field completeness check
(`spec_complete_contract`), but the source's `required_fields` list
concatenates `'Contract_Total_Amount'` and `'Currency'` into the
single key `"Contract_Total_AmountCurrency"`, so a record with all
five real fields is rejected: the code checks neither
`Contract_Total_Amount` nor `Currency` and demands a key no record
has. -/
theorem c6_concatenated_field_bug :
    spec_complete_contract c6_contract_record = true ∧
    is_complete_contract_data c6_contract_record = false ∧
    contract_required_fields =
      ["Contracted_Company", "Contracting_Company", "Contract_Date",
       "Contract_Total_AmountCurrency"] := by
  decide

/-! ### C2 — `process_contract` can never validate a contract -/

/-- C2: `process_contract` hands the whole project dictionary, not its
`file_uri`, to the extractor; `httpx.get` then raises `TypeError`,
which the extractor's `except` turns into `None`, so the extraction
result list is always empty and every run returns the failed verdict
`{is_valid: false, contract_data: None}` — `is_valid = true` is
unreachable, as is the `self.compare_contract_info` call that would
raise `AttributeError` (the class defines no such method, see
`contractProcessorMethods` and the non-empty branch of
`process_contract`). -/
theorem c2_process_contract_never_valid
    (oracle : String → Option ContractData) (project_data : PyDict) :
    extract_contract_info_uri oracle (.projectDict project_data) = [] ∧
    process_contract oracle project_data =
      .ok ⟨false, none, none⟩ := by
  have hextract : extract_contract_info_uri oracle (.projectDict project_data) = [] := by
    unfold extract_contract_info_uri
    split
    · rfl
    · simp [extract_invoice_info_uri]
  exact ⟨hextract, by simp [process_contract, hextract]⟩

/-! ### C7 — per-page versus per-document failure containment -/

/-- A two-page document whose first page renders and whose second page
makes the renderer raise. -/
def c7render : ℕ → Except PyError Img := fun i =>
  if i = 0 then .ok ⟨100, 100⟩ else .error (.valueError "render failed")

/-- A page encoder for the counterexample. -/
def c7encode : Img → String := fun _ => "page"

/-- C7 counterexample: the claim predicts that a renderer failure on
page 2 still yields page 1's image (`spec_per_page_conversion`), but
the source wraps the whole page loop in a single `try`, so the
failure discards page 1 as well and the document yields `[]`. -/
theorem c7_counterexample_page_failure :
    convert_file_to_base64_images c7render c7encode 2 = [] ∧
    spec_per_page_conversion c7render c7encode 2 = ["page"] ∧
    convert_file_to_base64_images c7render c7encode 2 ≠
      spec_per_page_conversion c7render c7encode 2 := by
  decide

/-- `Except.isOk` as a plain boolean. -/
def exOk {ε α : Type} : Except ε α → Bool
  | .ok _ => true
  | .error _ => false

/-- Value of a successful `Except`, defaulting otherwise. -/
def exVal {ε α : Type} [Inhabited α] : Except ε α → α
  | .ok a => a
  | .error _ => default

instance : Inhabited Img := ⟨⟨0, 0⟩⟩

/-- `convertPages` succeeds with one encoded image per page when every
listed page renders. -/
theorem convertPages_all_ok (render : ℕ → Except PyError Img)
    (encodePage : Img → String) (l : List ℕ)
    (h : l.all (fun i => exOk (render i)) = true) :
    convertPages render encodePage l =
      .ok (l.map (fun i => encodePage (exVal (render i)))) := by
  induction l with
  | nil => simp [convertPages]
  | cons i rest ih =>
    simp only [List.all_cons, Bool.and_eq_true] at h
    obtain ⟨img, himg⟩ : ∃ img, render i = .ok img := by
      cases hr : render i with
      | ok img => exact ⟨img, rfl⟩
      | error e => rw [hr] at h; simp [exOk] at h
    simp [convertPages, himg, ih h.2, exVal]

/-- Any failing page makes the whole `convertPages` run an error. -/
theorem convertPages_some_bad (render : ℕ → Except PyError Img)
    (encodePage : Img → String) (l : List ℕ)
    (h : l.all (fun i => exOk (render i)) = false) :
    ∃ e, convertPages render encodePage l = .error e := by
  induction l with
  | nil => simp at h
  | cons i rest ih =>
    cases hr : render i with
    | error e => exact ⟨e, by simp [convertPages, hr]⟩
    | ok img =>
      simp only [List.all_cons, Bool.and_eq_false_iff] at h
      rcases h with h | h
      · rw [hr] at h; simp [exOk] at h
      · obtain ⟨e, he⟩ := ih h
        exact ⟨e, by simp [convertPages, hr, he]⟩

/-- C7 amended: failure containment in
`convert_file_to_base64_images` is per document, not per page — if
every page of the PDF renders, the result is one encoded image per
page in document order; if any page's renderer raises, the single
`try` around the loop catches it and the whole document converts to
`[]` (the failure still never propagates to the caller). -/
theorem c7_document_level_failure (render : ℕ → Except PyError Img)
    (encodePage : Img → String) (page_count : ℕ) :
    convert_file_to_base64_images render encodePage page_count =
      if (List.range page_count).all (fun i => exOk (render i)) then
        (List.range page_count).map (fun i => encodePage (exVal (render i)))
      else [] := by
  by_cases h : (List.range page_count).all (fun i => exOk (render i)) = true
  · rw [convert_file_to_base64_images,
      convertPages_all_ok render encodePage _ h, if_pos h]
  · obtain ⟨e, he⟩ := convertPages_some_bad render encodePage
      (List.range page_count) (by simpa using h)
    rw [convert_file_to_base64_images, he, if_neg h]

/-! ### C4 — the compression loop is not bounded -/

/-- On an input whose encoding exceeds the budget at every quality and
every size, the `while quality > 20` loop never returns: each resize
resets quality to 80 before it can fall to 20 or below, so for every
amount of fuel the loop is still running — it neither stops after the
quality floor plus one resize, nor ever reaches the final halving
fallback of lines 112-116 (which would produce `some`). -/
theorem compressLoop_never_fits (enc : Img → ℕ → ℕ) (maxBytes : ℚ)
    (hover : ∀ img q, maxBytes < (enc img q : ℚ)) :
    ∀ (fuel : ℕ) (img : Img) (q : ℕ), 20 < q →
      compressLoop enc maxBytes fuel img q = none := by
  intro fuel
  induction fuel with
  | zero => intro img q _; rfl
  | succ n ih =>
    intro img q hq
    rw [compressLoop, if_pos hq]
    have hnot : ¬ ((enc img q : ℚ) ≤ maxBytes) := not_le.mpr (hover img q)
    rw [if_neg hnot]
    by_cases h30 : q - 10 ≤ 30
    · rw [if_pos h30]
      exact ih _ 80 (by norm_num)
    · rw [if_neg h30]
      exact ih _ (q - 10) (by omega)

/-- C4: the claim promises termination within a bound fixed by the
quality floor plus one resize escape hatch, ending in exactly one
unconditional halving step.  With an encoder that never fits the
default 4.5 MB budget (here: constantly 4718593 bytes, one byte over),
`compress_image_for_api` has not returned after any number of
iterations — the loop keeps resizing forever because each resize
resets quality to 80, the `while quality > 20` condition never turns
false, and the one-time halving fallback is unreachable dead code. -/
theorem c4_compress_loop_unbounded (fuel : ℕ) (img : Img) :
    compress_image_for_api (fun _ _ => 4718593) (max_size_bytes 4.5) fuel img =
      none := by
  have hover : ∀ (i : Img) (q : ℕ),
      max_size_bytes 4.5 < (((fun (_ : Img) (_ : ℕ) => (4718593 : ℕ)) i q : ℕ) : ℚ) := by
    intro i q
    norm_num [max_size_bytes]
  exact compressLoop_never_fits _ _ hover fuel img 95 (by norm_num)

/-! ### C3 — the final encoding can exceed the budget -/

/-- A JPEG encoder model, monotone in quality as real JPEG encoders
are: byte length = pixel count × quality. -/
def monoEnc : Img → ℕ → ℕ := fun img q => img.width * img.height * q

/-- C3: the claim says the base64 payload's pre-base64 JPEG byte
length never exceeds the 4.5 MB budget established by the compression
loop.  But `pil_to_base64` re-encodes the loop's result at the fixed
`quality=85`: on a 300×300 image under `monoEnc` the loop accepts
quality 45 (4 050 000 bytes ≤ 4 718 592), yet the final save at
quality 85 emits 7 650 000 bytes — over budget, exactly the quantity
the invariant speaks about. -/
theorem c3_reencode_exceeds_budget :
    pil_to_base64 monoEnc (max_size_bytes 4.5) 20 ⟨300, 300⟩ = some 7650000 ∧
    (monoEnc ⟨300, 300⟩ 45 : ℚ) ≤ max_size_bytes 4.5 ∧
    max_size_bytes 4.5 < ((7650000 : ℕ) : ℚ) := by
  have hmb : max_size_bytes 4.5 = (4718592 : ℚ) := by norm_num [max_size_bytes]
  refine ⟨?_, ?_, ?_⟩
  · rw [hmb]
    decide
  · rw [hmb]
    norm_num [monoEnc]
  · rw [hmb]
    norm_num

/-! ### C1 — per-project failures are not contained -/

/-- C1: the claim says any failure while processing one project is
caught at that project's boundary, logged, and turned into a failed
verdict for that project only.  In the source, `invoiceProcess` has no
`try/except` around the per-project body: when a project's download
fails, `download_file_from_uri` returns `None`, and
`detect_file_type(None)` raises `AttributeError` on
`None.startswith`, which propagates out of the loop — no verdict is
written for the failing project and every remaining project in the
batch goes unprocessed. -/
theorem c1_project_failure_aborts_batch (fetch : String → Option Bytes)
    (convert : Bytes → List String)
    (extract : String → Option InvoiceRecord)
    (project : Project) (rest : List Project)
    (hfail : fetch project.file_uri = none) :
    invoiceProcess fetch convert extract (project :: rest) =
      ([], some (.attributeError "NoneType" "startswith")) := by
  rw [invoiceProcess]
  simp [process_file_from_uri, hfail]

/-- Download that fails for every URI. -/
def c1_fetch : String → Option Bytes := fun _ => none

/-- PDF conversion stub for the witness batch. -/
def c1_convert : Bytes → List String := fun _ => []

/-- Extraction stub for the witness batch. -/
def c1_extract : String → Option InvoiceRecord := fun _ => none

/-- A two-project batch whose first project's download fails. -/
def c1_projects : List Project :=
  [⟨1, "https://files.example/invoice-a.pdf", 100⟩,
   ⟨2, "https://files.example/invoice-b.pdf", 200⟩]

/-- Witness for C1 at the concrete two-project batch: the download
failure on project 1 aborts the whole run with an uncaught
`AttributeError`, no verification is written for either project. -/
theorem c1_project_failure_aborts_batch_witness :
    c1_fetch (⟨1, "https://files.example/invoice-a.pdf", 100⟩ : Project).file_uri
        = none ∧
    invoiceProcess c1_fetch c1_convert c1_extract c1_projects =
      ([], some (.attributeError "NoneType" "startswith")) :=
  ⟨rfl, c1_project_failure_aborts_batch c1_fetch c1_convert c1_extract
    ⟨1, "https://files.example/invoice-a.pdf", 100⟩
    [⟨2, "https://files.example/invoice-b.pdf", 200⟩] rfl⟩

/-! ### C5 — the ZATCA VAT check skips empty and `N/A` values -/

/-- An invoice whose supplier VAT number is the sentinel `"N/A"`. -/
def c5_record : InvoiceRecord :=
  { invoice_number := "INV-1001"
    invoice_date := "2024-01-01"
    supplier_name := "Acme Co"
    supplier_vat_number := "N/A"
    customer_name := "Bob"
    total_amount_excluding_vat := "N/A"
    vat_amount := "N/A"
    total_amount_including_vat := "N/A"
    currency_code := "SAR"
    qr_code_present := "1" }

/-- C5 counterexample: the claim says a VAT value that is not 15
digits after stripping — including the sentinel `"N/A"` — appends an
error and flips `is_compliant` to false.  On `c5_record` the source's
guard `if vat_number and vat_number != 'N/A'` skips the check
entirely: no error, `is_compliant` stays true. -/
theorem c5_counterexample_na_vat :
    (validate_zatca_compliance c5_record).is_compliant = true ∧
    (validate_zatca_compliance c5_record).errors = [] := by
  decide

/-- The three rules after the VAT block only ever append warnings:
they preserve `errors` and `is_compliant`. -/
theorem zatca_warning_steps_preserve (d : InvoiceRecord) (v : ZatcaValidation) :
    (zatcaAmountStep d (zatcaQrStep d (zatcaCurrencyStep d v))).errors = v.errors ∧
    (zatcaAmountStep d (zatcaQrStep d (zatcaCurrencyStep d v))).is_compliant =
      v.is_compliant := by
  unfold zatcaAmountStep zatcaQrStep zatcaCurrencyStep
  constructor <;> (repeat' split) <;> rfl

/-- The VAT block of `validate_zatca_compliance` alone decides
`errors` and `is_compliant`; the three later rules only ever append
warnings. -/
theorem validate_zatca_vat_cases (d : InvoiceRecord) :
    ((d.supplier_vat_number = "" ∨ d.supplier_vat_number = "N/A" ∨
        (pyIsDigit (cleanVat d.supplier_vat_number).data ∧
          (cleanVat d.supplier_vat_number).length = 15)) ∧
      (validate_zatca_compliance d).errors = [] ∧
      (validate_zatca_compliance d).is_compliant = true) ∨
    (¬ (d.supplier_vat_number = "" ∨ d.supplier_vat_number = "N/A" ∨
        (pyIsDigit (cleanVat d.supplier_vat_number).data ∧
          (cleanVat d.supplier_vat_number).length = 15)) ∧
      (validate_zatca_compliance d).errors =
        ["Invalid VAT number: " ++ d.supplier_vat_number] ∧
      (validate_zatca_compliance d).is_compliant = false) := by
  obtain ⟨he, hc⟩ := zatca_warning_steps_preserve d (zatcaVatStep d ⟨true, [], []⟩)
  rw [validate_zatca_compliance, he, hc]
  by_cases h1 : d.supplier_vat_number ≠ "" ∧ d.supplier_vat_number ≠ "N/A"
  · by_cases h2 : pyIsDigit (cleanVat d.supplier_vat_number).data ∧
        (cleanVat d.supplier_vat_number).length = 15
    · left
      refine ⟨Or.inr (Or.inr h2), ?_⟩
      unfold zatcaVatStep
      rw [if_pos h1]
      simp [h2]
    · right
      refine ⟨by simpa [h1.1, h1.2] using h2, ?_⟩
      unfold zatcaVatStep
      rw [if_pos h1]
      simp [h2]
  · left
    have hor : d.supplier_vat_number = "" ∨ d.supplier_vat_number = "N/A" := by
      by_contra hc2
      push_neg at hc2
      exact h1 hc2
    refine ⟨hor.imp id Or.inl, ?_⟩
    unfold zatcaVatStep
    rw [if_neg h1]
    exact ⟨rfl, rfl⟩

/-- C5 amended: `validate_zatca_compliance` checks the supplier VAT
number only when the field is non-empty and not exactly `"N/A"`; in
that case a value that is not 15 digits after stripping spaces and
hyphens appends an error and sets `is_compliant = false`, while an
empty or `"N/A"` value is skipped with no error.  Warnings alone never
change `is_compliant`: it is false exactly when the errors list is
non-empty. -/
theorem c5_vat_check_amended (d : InvoiceRecord) :
    ((validate_zatca_compliance d).is_compliant = true ↔
      (validate_zatca_compliance d).errors = []) ∧
    ((validate_zatca_compliance d).errors = [] ↔
      (d.supplier_vat_number = "" ∨ d.supplier_vat_number = "N/A" ∨
        (pyIsDigit (cleanVat d.supplier_vat_number).data ∧
          (cleanVat d.supplier_vat_number).length = 15))) := by
  rcases validate_zatca_vat_cases d with ⟨hok, he, hc⟩ | ⟨hnot, he, hc⟩
  · rw [he, hc]
    simp [hok]
  · rw [he, hc]
    simp [hnot]

/-! ### C8 — `is_contract_amount_matching` -/

/-- C8: the source's currency-aware amount matching agrees with the
claim exactly — `SAR` amounts compared directly, `USD` amounts
converted at 3.75, tolerance strictly below 1000, any other currency
or any parse failure rejected without raising. -/
theorem c8_amount_matching_iff (d : PyDict) (expected_amount : ℚ) :
    is_contract_amount_matching d expected_amount = true ↔
      spec_amount_matching d expected_amount := by
  unfold is_contract_amount_matching spec_amount_matching
  by_cases hsar : pyUpper (pyStrip (pyGet d "Currency" "")) = "SAR"
  · rw [if_pos hsar]
    cases hp : pyFloat (cleanAmount (pyGet d "Contract_Total_Amount" "")) with
    | some a => simp [hsar, hp]
    | none => simp [hsar, hp]
  · rw [if_neg hsar]
    by_cases husd : pyUpper (pyStrip (pyGet d "Currency" "")) = "USD"
    · rw [if_pos husd]
      cases hp : pyFloat (cleanAmount (pyGet d "Contract_Total_Amount" "")) with
      | some a => simp [hsar, husd, hp]
      | none => simp [hsar, husd, hp]
    · rw [if_neg husd]
      simp [hsar, husd]

/-! ### C9 — `is_complete_invoice_data` -/

/-- `meaningfulAmount` holds exactly when the cleaned amount parses to
a positive value. -/
theorem meaningfulAmount_iff (v : String) :
    meaningfulAmount v = true ↔
      ∃ a : ℚ, pyFloat (cleanAmount (pyStrip v)) = some a ∧ 0 < a := by
  unfold meaningfulAmount
  cases hp : pyFloat (cleanAmount (pyStrip v)) with
  | some a => simp [hp]
  | none => simp [hp]

/-- With a length-15 requirement alongside, `pyIsDigit`'s
non-emptiness conjunct is redundant. -/
theorem pyIsDigit_len15 (s : String) :
    (pyIsDigit s.data = true ∧ s.length = 15) ↔
      (s.data.all Char.isDigit = true ∧ s.length = 15) := by
  constructor
  · rintro ⟨h, hlen⟩
    rw [pyIsDigit, Bool.and_eq_true] at h
    exact ⟨h.2, hlen⟩
  · rintro ⟨h, hlen⟩
    refine ⟨?_, hlen⟩
    rw [pyIsDigit, Bool.and_eq_true]
    refine ⟨?_, h⟩
    have hdlen : s.data.length = 15 := hlen
    cases hd : s.data with
    | nil => rw [hd] at hdlen; simp at hdlen
    | cons a l => simp [hd]

/-- C9: `is_complete_invoice_data` agrees with the claim's conjunctive
reading — required fields non-empty and non-sentinel, at least one
headline amount parsing to a positive value, a 15-digit VAT number
after separator removal, and the minimum name lengths; the source's
extra re-check of the date against `N/A`/`NA` is subsumed by the
required-field sentinel check. -/
theorem c9_complete_invoice_iff (d : InvoiceRecord) :
    is_complete_invoice_data d = true ↔ spec_complete_invoice d := by
  unfold is_complete_invoice_data spec_complete_invoice
  by_cases h1 : [d.invoice_number, d.invoice_date, d.supplier_name,
      d.supplier_vat_number, d.customer_name].any requiredFieldBad = true
  · rw [if_pos h1]
    refine iff_of_false (by decide) ?_
    rintro ⟨hall, -⟩
    obtain ⟨v, hv, hbad⟩ := List.any_eq_true.mp h1
    obtain ⟨hne, hnin⟩ := hall v hv
    rw [requiredFieldBad] at hbad
    simp only [decide_eq_true_eq] at hbad
    rcases hbad with h | h
    · exact hne h
    · exact hnin h
  · rw [if_neg h1]
    have h1' : [d.invoice_number, d.invoice_date, d.supplier_name,
        d.supplier_vat_number, d.customer_name].any requiredFieldBad = false := by
      revert h1
      cases [d.invoice_number, d.invoice_date, d.supplier_name,
        d.supplier_vat_number, d.customer_name].any requiredFieldBad <;> simp
    have hok : ∀ v ∈ [d.invoice_number, d.invoice_date, d.supplier_name,
        d.supplier_vat_number, d.customer_name],
        pyStrip v ≠ "" ∧ pyUpper (pyStrip v) ∉ sentinelStrings := by
      intro v hv
      have hb := List.any_eq_false.mp h1' v hv
      rw [requiredFieldBad] at hb
      simp only [decide_eq_true_eq, not_or] at hb
      exact hb
    by_cases h2 : [d.total_amount_excluding_vat, d.vat_amount,
        d.total_amount_including_vat].any meaningfulAmount = true
    · rw [if_neg (not_not_intro h2)]
      by_cases h3 : pyIsDigit (cleanVat (pyStrip d.supplier_vat_number)).data = true ∧
          (cleanVat (pyStrip d.supplier_vat_number)).length = 15
      · rw [if_neg (not_not_intro h3)]
        have hdate : pyUpper (pyStrip d.invoice_date) ∉ (["N/A", "NA"] : List String) := by
          have hsen := (hok d.invoice_date (by simp)).2
          intro hmem
          apply hsen
          have hmem2 : pyUpper (pyStrip d.invoice_date) = "N/A" ∨
              pyUpper (pyStrip d.invoice_date) = "NA" := by
            simpa using hmem
          rcases hmem2 with h | h <;> simp [sentinelStrings, h]
        rw [if_neg hdate]
        by_cases h5 : (pyStrip d.supplier_name).length < 3
        · rw [if_pos h5]
          refine iff_of_false (by decide) ?_
          rintro ⟨-, -, -, hlen, -⟩
          omega
        · rw [if_neg h5]
          by_cases h6 : (pyStrip d.customer_name).length < 2
          · rw [if_pos h6]
            refine iff_of_false (by decide) ?_
            rintro ⟨-, -, -, -, hlen⟩
            omega
          · rw [if_neg h6]
            refine iff_of_true rfl ?_
            refine ⟨hok, ?_, (pyIsDigit_len15 _).mp h3, by omega, by omega⟩
            obtain ⟨v, hv, hma⟩ := List.any_eq_true.mp h2
            exact ⟨v, hv, (meaningfulAmount_iff v).mp hma⟩
      · rw [if_pos h3]
        refine iff_of_false (by decide) ?_
        rintro ⟨-, -, hvat, -, -⟩
        exact h3 ((pyIsDigit_len15 _).mpr hvat)
    · rw [if_pos (by simpa using h2)]
      refine iff_of_false (by decide) ?_
      rintro ⟨-, ⟨v, hv, ha⟩, -, -, -⟩
      exact h2 (List.any_eq_true.mpr ⟨v, hv, (meaningfulAmount_iff v).mpr ha⟩)

/-! ### Concrete evaluations

The worked examples of the specification's testable-properties
section, run on the embedded source functions. -/

/-- `isAmountMatching` on the three test vectors: within-tolerance
SAR, exactly-converting USD, and an unsupported currency. -/
theorem amount_matching_examples :
    is_contract_amount_matching
      [("Currency", "SAR"), ("Contract_Total_Amount", "10,500 SAR")] 10000 = true ∧
    is_contract_amount_matching
      [("Currency", "USD"), ("Contract_Total_Amount", "2800")] 10500 = true ∧
    is_contract_amount_matching
      [("Currency", "EUR"), ("Contract_Total_Amount", "10000")] 10000 = false := by
  refine ⟨?_, ?_, ?_⟩
  · have hamt : pyFloat (cleanAmount
        (pyGet [("Currency", "SAR"), ("Contract_Total_Amount", "10,500 SAR")]
          "Contract_Total_Amount" "")) = some 10500 := by decide
    rw [is_contract_amount_matching, if_pos (by decide), hamt]
    simp only [decide_eq_true_eq]
    norm_num
  · have hamt : pyFloat (cleanAmount
        (pyGet [("Currency", "USD"), ("Contract_Total_Amount", "2800")]
          "Contract_Total_Amount" "")) = some 2800 := by decide
    rw [is_contract_amount_matching, if_neg (by decide), if_pos (by decide), hamt]
    simp only [decide_eq_true_eq]
    norm_num
  · rw [is_contract_amount_matching, if_neg (by decide), if_neg (by decide)]

/-- The specification's complete example invoice passes
`is_complete_invoice_data`, and shortening the VAT number to 5 digits
fails it. -/
theorem complete_invoice_examples :
    is_complete_invoice_data
      { invoice_number := "INV1", invoice_date := "2024-01-01",
        supplier_name := "Acme Co", supplier_vat_number := "123456789012345",
        customer_name := "Bob", total_amount_excluding_vat := "N/A",
        vat_amount := "N/A", total_amount_including_vat := "100 SAR",
        currency_code := "SAR", qr_code_present := "1" } = true ∧
    is_complete_invoice_data
      { invoice_number := "INV1", invoice_date := "2024-01-01",
        supplier_name := "Acme Co", supplier_vat_number := "12345",
        customer_name := "Bob", total_amount_excluding_vat := "N/A",
        vat_amount := "N/A", total_amount_including_vat := "100 SAR",
        currency_code := "SAR", qr_code_present := "1" } = false := by
  decide

end VQ
